import Mathlib

/-!
Shallow embedding of the PSB learning-platform front-end (a React/TypeScript
client).  Network effects are modelled by passing the HTTP response a call
would receive as an explicit argument; browser state (local storage, the
location bar) is threaded explicitly.  Each definition is translated from a
named function of the source tree.
-/

/-! ## Data model (src/api/auth.ts, courses.ts, lessons.ts, assignments.ts) -/

inductive Role where
  | student
  | teacher
deriving DecidableEq, Repr

structure User where
  id : Nat
  email : String
  first_name : String
  last_name : String
  role : Role
  is_active : Bool
  avatar_url : Option String
deriving DecidableEq, Repr

inductive CourseStatus where
  | draft
  | published
deriving DecidableEq, Repr

structure Course where
  id : Nat
  title : String
  description : String
  teacher_id : Option Nat
  status : Option CourseStatus
deriving DecidableEq, Repr

structure Enrollment where
  id : Nat
  student_id : Nat
  course_id : Nat
  progress : Int
  enrolled_at : String
  course_title : String
deriving DecidableEq, Repr

inductive LessonType where
  | text
  | video
  | file
deriving DecidableEq, Repr

structure Lesson where
  id : Nat
  course_id : Nat
  title : String
  content : Option String
  order : Int
  type : LessonType
  file_url : Option String
  created_at : String
deriving DecidableEq, Repr

structure Assignment where
  id : Nat
  lesson_id : Nat
  title : String
  description : Option String
  deadline : Option String
  max_score : Int
  created_at : String
deriving DecidableEq, Repr

structure SubmissionComment where
  id : Nat
  user_name : String
  content : String
  created_at : String
deriving DecidableEq, Repr

/-- Generic paginated response shape returned by the backend. -/
structure Paginated (α : Type) where
  items : List α
  total : Nat
  skip : Nat
  limit : Nat
deriving DecidableEq, Repr

/-! ## Browser state and the API client (src/api/apiClient.ts) -/

/-- The two token slots of `localStorage` used by the client. -/
structure LocalStorage where
  access_token : Option String
  refresh_token : Option String
deriving DecidableEq, Repr

/-- Local storage plus `window.location.href`. -/
structure BrowserState where
  storage : LocalStorage
  location : String
deriving DecidableEq, Repr

/-- `handleUnauthorized` of apiClient.ts: removes both tokens, navigates to
the root path and throws the session-expired error (returned as the second
component, since the TS function has return type `never`). -/
def handleUnauthorized (s : BrowserState) : BrowserState × String :=
  ({ storage := { access_token := none, refresh_token := none }, location := "/" },
    "Сессия истекла")

/-- An HTTP response, parameterised by the type of its parsed JSON body. -/
structure HttpResponse (β : Type) where
  status : Nat
  body : β
deriving DecidableEq, Repr

/-- `Response.ok` of the fetch API: status in the range 200-299. -/
def HttpResponse.ok {β : Type} (r : HttpResponse β) : Bool :=
  decide (200 ≤ r.status) && decide (r.status < 300)

/-- Lookup of a header key in a header record (modelled as a key-value list;
a JavaScript object holds each key at most once). -/
def lookupHeader (headers : List (String × String)) (key : String) : Option String :=
  (headers.find? (fun p => p.1 == key)).map (fun p => p.2)

/-- `options.headers?.hasOwnProperty('Authorization')` for a given key. -/
def hasHeaderKey (headers : List (String × String)) (key : String) : Bool :=
  headers.any (fun p => p.1 == key)

/-- The header-building part of `apiFetch` (apiClient.ts lines 20-28): spread
the caller's headers, then attach `Authorization: Bearer <token>` only when a
token is stored and the caller did not already supply that key. -/
def apiFetchHeaders (token : Option String) (optionsHeaders : List (String × String)) :
    List (String × String) :=
  match token with
  | some t =>
      if hasHeaderKey optionsHeaders "Authorization" then optionsHeaders
      else optionsHeaders ++ [("Authorization", "Bearer " ++ t)]
  | none => optionsHeaders

/-- The response-handling part of `apiFetch` (apiClient.ts lines 35-39):
status 401 triggers `handleUnauthorized`, every other response is returned. -/
def apiFetch {β : Type} (s : BrowserState) (rsp : HttpResponse β) :
    BrowserState × Except String (HttpResponse β) :=
  if rsp.status == 401 then
    let r := handleUnauthorized s
    (r.1, Except.error r.2)
  else
    (s, Except.ok rsp)

/-- `checkResponse` of courses.ts: 401 triggers `handleUnauthorized`, any
other response is passed through. -/
def checkResponse {β : Type} (s : BrowserState) (rsp : HttpResponse β) :
    BrowserState × Except String (HttpResponse β) :=
  if rsp.status == 401 then
    let r := handleUnauthorized s
    (r.1, Except.error r.2)
  else
    (s, Except.ok rsp)

/-- `getCurrentUser` of auth.ts: 401 triggers `handleUnauthorized`; any other
non-ok response throws; an ok response yields the parsed user. -/
def getCurrentUser (s : BrowserState) (rsp : HttpResponse User) :
    BrowserState × Except String User :=
  if rsp.status == 401 then
    let r := handleUnauthorized s
    (r.1, Except.error r.2)
  else if !rsp.ok then
    (s, Except.error "Не авторизован")
  else
    (s, Except.ok rsp.body)

/-- `getCourseLessons` of lessons.ts: a plain fetch; any non-ok response —
401 included — only throws the generic load error.  It never calls
`handleUnauthorized`, so the browser state is returned unchanged. -/
def getCourseLessons (s : BrowserState) (rsp : HttpResponse (Paginated Lesson)) :
    BrowserState × Except String (Paginated Lesson) :=
  if !rsp.ok then
    (s, Except.error "Ошибка загрузки уроков")
  else
    (s, Except.ok rsp.body)

/-! ## App startup (App component, whoami bootstrap) -/

/-- Result of the startup effect: final browser state, the in-memory user,
and how many whoami (`/auth/me`) calls were made. -/
structure StartupResult where
  browser : BrowserState
  user : Option User
  whoamiCalls : Nat
deriving DecidableEq, Repr

/-- The mount effect of `App`: if no access token is stored nothing is
fetched; otherwise `getCurrentUser` runs once — success populates the user,
failure removes both tokens and leaves the user unauthenticated. -/
def appStartup (s : BrowserState) (rsp : HttpResponse User) : StartupResult :=
  match s.storage.access_token with
  | none => { browser := s, user := none, whoamiCalls := 0 }
  | some _ =>
      let r := getCurrentUser s rsp
      match r.2 with
      | Except.ok u => { browser := r.1, user := some u, whoamiCalls := 1 }
      | Except.error _ =>
          { browser := { r.1 with
              storage := { access_token := none, refresh_token := none } },
            user := none, whoamiCalls := 1 }

/-! ## Dashboard: pagination and the course projection (Dashboard.tsx) -/

/-- The skip/limit pair a paginated request carries. -/
structure PaginationQuery where
  skip : Nat
  limit : Nat
deriving DecidableEq, Repr

/-- The query built by `fetchCourses` (Dashboard.tsx line 61): it requests
`getMyCourses` with `skip = (currentPage - 1) * perPage` and
`limit = perPage`. -/
def fetchCoursesQuery (currentPage perPage : Nat) : PaginationQuery :=
  { skip := (currentPage - 1) * perPage, limit := perPage }

/-- `totalPages` of Dashboard.tsx line 135: the k such that
Math.ceil(totalCourses / perPage) = k, written as natural division. -/
def totalPages (totalCourses perPage : Nat) : Nat :=
  (totalCourses + perPage - 1) / perPage

/-- The page-changing controls of the Dashboard pagination block. -/
inductive PageAction where
  | prevArrow
  | nextArrow
  | pageButton (n : Nat)
  | lastPageButton
deriving DecidableEq, Repr

/-- The numbered page buttons rendered (Dashboard.tsx lines 391-409): all of
1..totalPages when totalPages ≤ maxVisible + 2 = 7, otherwise
1..min 5 totalPages (the ellipsis button is `lastPageButton`). -/
def visiblePageButtons (tp : Nat) : List Nat :=
  if tp ≤ 7 then (List.range tp).map (fun i => i + 1)
  else (List.range (min 5 tp)).map (fun i => i + 1)

/-- `disabled` of the previous-page arrow: `currentPage === 1`. -/
def prevDisabled (currentPage : Nat) : Bool :=
  currentPage == 1

/-- `disabled` of the next-page arrow:
`currentPage === totalPages || totalPages === 0`. -/
def nextDisabled (currentPage tp : Nat) : Bool :=
  currentPage == tp || tp == 0

/-- The new current page produced by each control: the arrows clamp with
`Math.max(1, p - 1)` / `Math.min(totalPages, p + 1)`, a numbered button
jumps to its page, the ellipsis button jumps to the last page. -/
def pageStep (tp currentPage : Nat) : PageAction → Nat
  | PageAction.prevArrow => max 1 (currentPage - 1)
  | PageAction.nextArrow => min tp (currentPage + 1)
  | PageAction.pageButton n => n
  | PageAction.lastPageButton => tp

/-- An item of a `/my/courses` response: the endpoint returns `Enrollment`
records for students and `Course` records for teachers
(`MyCoursesResponse = Enrollment | Course` in courses.ts). -/
inductive MyCoursesItem where
  | enrollment (e : Enrollment)
  | course (c : Course)
deriving DecidableEq, Repr

/-- The `'course_id' in item` test of Dashboard.tsx line 69: only the
enrollment shape has a `course_id` field. -/
def MyCoursesItem.hasCourseIdField : MyCoursesItem → Bool
  | MyCoursesItem.enrollment _ => true
  | MyCoursesItem.course _ => false

/-- The unified display shape `UserCourse` of Dashboard.tsx: `progress` is
null for teachers, `status` is only set for teachers. -/
structure UserCourse where
  id : Nat
  title : String
  description : String
  progress : Option Int
  status : Option CourseStatus
deriving DecidableEq, Repr

/-- The per-item projection inside `fetchCourses` (Dashboard.tsx lines
67-89): an enrollment keeps its numeric progress and gets no status; a
teacher course gets `progress = null` and `status = course.status || 'draft'`. -/
def projectMyCourse : MyCoursesItem → UserCourse
  | MyCoursesItem.enrollment e =>
      { id := e.course_id, title := e.course_title, description := "",
        progress := some e.progress, status := none }
  | MyCoursesItem.course c =>
      { id := c.id, title := c.title, description := c.description,
        progress := none, status := some (c.status.getD CourseStatus.draft) }

/-- `response.items.map(...)` of `fetchCourses`. -/
def fetchCoursesProjection (items : List MyCoursesItem) : List UserCourse :=
  items.map projectMyCourse

/-! ## CoursePage: lesson aggregation and labels (CoursePage.tsx) -/

/-- A lesson with its assignments loaded (`LessonWithAssignments`). -/
structure LessonWithAssignments where
  lesson : Lesson
  assignments : List Assignment
deriving DecidableEq, Repr

/-- The per-lesson body of `fetchLessons` (CoursePage.tsx lines 33-40): the
assignment fetch for the lesson either succeeds with a list of items or
throws, and a throw degrades to an empty assignments array. -/
def mergeLessonAssignments (getAssignments : Nat → Except String (List Assignment))
    (lesson : Lesson) : LessonWithAssignments :=
  match getAssignments lesson.id with
  | Except.ok items => { lesson := lesson, assignments := items }
  | Except.error _ => { lesson := lesson, assignments := [] }

/-- `fetchLessons` of CoursePage.tsx: map every fetched lesson to its merged
record, then `sort((a, b) => a.order - b.order)`.  `Array.prototype.sort` is
a stable sort by the comparator, embedded as a stable insertion sort by
`order`. -/
def fetchLessons (items : List Lesson)
    (getAssignments : Nat → Except String (List Assignment)) :
    List LessonWithAssignments :=
  List.insertionSort (fun a b => a.lesson.order ≤ b.lesson.order)
    (items.map (mergeLessonAssignments getAssignments))

/-- The lesson labels of the structure panel (CoursePage.tsx line 255): the
i-th entry of the sorted list renders with the 1-based index, not with the
lesson's `order` field. -/
def lessonListLabels (lessons : List LessonWithAssignments) : List String :=
  lessons.enum.map
    (fun p => "Урок " ++ toString (p.1 + 1) ++ ": " ++ p.2.lesson.title)

/-- The number of the selected lesson in the content header (CoursePage.tsx
line 287): `lessons.findIndex(l => l.id === selectedLesson.id) + 1`
(JavaScript `findIndex` yields -1 when the id is absent). -/
def selectedLessonNumber (lessons : List LessonWithAssignments)
    (selectedId : Nat) : Int :=
  (match lessons.findIdx? (fun l => l.lesson.id == selectedId) with
   | some i => (i : Int)
   | none => -1) + 1

/-- The lesson-number circles of the second `CoursePage` variant's sidebar
(the `lessons.map` of its structure panel): each circle renders the raw
`lesson.order` value, not the position in the list. -/
def lessonCircleNumbers (lessons : List LessonWithAssignments) : List Int :=
  lessons.map (fun lesson => lesson.lesson.order)

/-! ## AssignmentsPage: grading and comments (AssignmentsPage component) -/

/-- Decimal value of a digit character. -/
def digitVal (c : Char) : Nat :=
  c.toNat - 48

/-- Value of a run of decimal digits. -/
def decDigitsToNat (ds : List Char) : Nat :=
  ds.foldl (fun n c => n * 10 + digitVal c) 0

/-- JavaScript `parseInt(s)` (radix 10): skip leading whitespace, accept an
optional sign, read the longest run of decimal digits; NaN (here `none`)
when no digit follows. -/
def jsParseInt (s : String) : Option Int :=
  let cs := s.data.dropWhile Char.isWhitespace
  match cs with
  | [] => none
  | c :: rest =>
    if c = '-' then
      let ds := rest.takeWhile Char.isDigit
      if ds.isEmpty then none else some (-(decDigitsToNat ds : Int))
    else if c = '+' then
      let ds := rest.takeWhile Char.isDigit
      if ds.isEmpty then none else some (decDigitsToNat ds : Int)
    else
      let ds := (c :: rest).takeWhile Char.isDigit
      if ds.isEmpty then none else some (decDigitsToNat ds : Int)

/-- The body sent to the grade endpoint (`{ score, feedback }`). -/
structure GradeRequest where
  score : Int
  feedback : Option String
deriving DecidableEq, Repr

/-- The validation-and-call logic of `handleGrade` (AssignmentsPage lines
76-108): `parseInt` the entered score; if it is NaN or negative, set the
inline error and make no call; otherwise call `gradeSubmission` with the
parsed score and `feedback || undefined`.  The first component is the request
sent (`none` = no network call), the second is the inline `gradeError`
right after validation. -/
def handleGrade (score feedback : String) : Option GradeRequest × Option String :=
  match jsParseInt score with
  | none => (none, some "Введите корректную оценку")
  | some n =>
      if n < 0 then (none, some "Введите корректную оценку")
      else
        (some { score := n,
                feedback := if feedback = "" then none else some feedback },
          none)

/-- The comment-modal state slice of `AssignmentsPage`. -/
structure CommentsState where
  viewing : Option Nat
  comments : List SubmissionComment
  loadingComments : Bool
  addingComment : Bool
  pageError : Option String
deriving DecidableEq, Repr

/-- `loadComments` (AssignmentsPage lines 147-167): open the modal, load the
thread; on success store the data, on a throw only log and store the empty
list — the page-level `error` state is untouched. -/
def loadComments (st : CommentsState) (submissionId : Nat)
    (result : Except String (List SubmissionComment)) : CommentsState :=
  let st1 := { st with viewing := some submissionId, loadingComments := true }
  match result with
  | Except.ok data => { st1 with comments := data, loadingComments := false }
  | Except.error _ => { st1 with comments := [], loadingComments := false }

/-- `disabled` of the add-comment button:
`addingComment || !newComment.trim()`. -/
def addCommentDisabled (st : CommentsState) (newComment : String) : Bool :=
  st.addingComment || (newComment.trim == "")

/-! ## LessonModal: client-side file-type validation -/

/-- A selected file as seen by the change handler (name and MIME type). -/
structure SelectedFile where
  name : String
  mime : String
deriving DecidableEq, Repr

/-- `validVideoTypes` of `handleFileChange` in LessonModal. -/
def validVideoTypes : List String :=
  ["video/mp4", "video/webm", "video/quicktime", "video/x-msvideo",
    "video/x-matroska"]

/-- The rejection message, naming the acceptable formats. -/
def videoFormatError : String :=
  "Пожалуйста, выберите видео файл (MP4, WebM, MOV, AVI, MKV)"

/-- The `file` / `error` state slice of the lesson modal. -/
structure LessonModalState where
  file : Option SelectedFile
  error : Option String
deriving DecidableEq, Repr

/-- `handleFileChange` of LessonModal: with lesson type `video`, a selected
file whose MIME type is outside `validVideoTypes` only sets the error and
returns — the file is not stored; otherwise the file is stored and the
error cleared. -/
def handleFileChange (ltype : LessonType) (selected : Option SelectedFile)
    (st : LessonModalState) : LessonModalState :=
  match selected with
  | none => st
  | some f =>
      if ltype = LessonType.video then
        if validVideoTypes.contains f.mime then
          { st with file := some f, error := none }
        else
          { st with error := some videoFormatError }
      else
        { st with file := some f, error := none }

/-! ## Helper lemmas -/

theorem lookupHeader_eq_none_of_no_key (headers : List (String × String))
    (key : String) (h : hasHeaderKey headers key = false) :
    lookupHeader headers key = none := by
  unfold lookupHeader
  rw [List.find?_eq_none.mpr]
  · rfl
  · intro x hx
    exact (List.any_eq_false.mp h) x hx

theorem hasKey_of_lookupHeader_some (headers : List (String × String))
    (key v : String) (h : lookupHeader headers key = some v) :
    hasHeaderKey headers key = true := by
  unfold lookupHeader at h
  rcases hf : headers.find? (fun p => p.1 == key) with _ | p
  · rw [hf] at h; cases h
  · have hp := List.find?_some hf
    have hm := List.mem_of_find?_eq_some hf
    exact List.any_eq_true.mpr ⟨p, hm, hp⟩

/-! ## Claims -/

/-- C10: `apiFetch` attaches `Authorization: Bearer <token>` exactly when an
access token is stored and the caller's options carry no `Authorization`
key; a caller-supplied `Authorization` value passes through unchanged, and
with no token and no caller key the request has no `Authorization` header. -/
theorem c10_auth_header (token : Option String) (hs : List (String × String)) :
    (∀ t, token = some t → hasHeaderKey hs "Authorization" = false →
      lookupHeader (apiFetchHeaders token hs) "Authorization" =
        some ("Bearer " ++ t))
  ∧ (∀ v, lookupHeader hs "Authorization" = some v →
      lookupHeader (apiFetchHeaders token hs) "Authorization" = some v)
  ∧ (token = none → hasHeaderKey hs "Authorization" = false →
      lookupHeader (apiFetchHeaders token hs) "Authorization" = none) := by
  refine ⟨?_, ?_, ?_⟩
  · intro t ht hkey
    subst ht
    have h0 : hs.find? (fun p => p.1 == "Authorization") = none := by
      rw [List.find?_eq_none]
      intro x hx
      exact (List.any_eq_false.mp hkey) x hx
    simp [apiFetchHeaders, hkey, lookupHeader, List.find?_append, h0]
  · intro v hv
    have hkey := hasKey_of_lookupHeader_some hs "Authorization" v hv
    cases token with
    | none => simpa [apiFetchHeaders] using hv
    | some t => simpa [apiFetchHeaders, hkey] using hv
  · intro ht hkey
    subst ht
    simpa [apiFetchHeaders] using lookupHeader_eq_none_of_no_key hs _ hkey

/-- C10 witness: with a stored token and empty options the bearer header is
attached; with neither, no `Authorization` header is present. -/
theorem c10_witness :
    lookupHeader (apiFetchHeaders (some "tok") []) "Authorization" =
      some ("Bearer " ++ "tok")
  ∧ lookupHeader (apiFetchHeaders none []) "Authorization" = none := by
  refine ⟨(c10_auth_header (some "tok") []).1 "tok" rfl (by decide), ?_⟩
  exact (c10_auth_header none []).2.2 rfl (by decide)

/-- A browser state holding both tokens, sitting on a course page. -/
def demoBrowser : BrowserState :=
  { storage := { access_token := some "tok", refresh_token := some "ref" },
    location := "/courses/1" }

/-- A 401 response to a lesson-list request. -/
def demoLessons401 : HttpResponse (Paginated Lesson) :=
  { status := 401, body := { items := [], total := 0, skip := 0, limit := 100 } }

/-- C1 counterexample: `getCourseLessons` receives a 401 yet neither token is
removed and no navigation to `/` happens — the call only throws the generic
load error, refuting "regardless of which endpoint". -/
theorem c1_counterexample :
    (getCourseLessons demoBrowser demoLessons401).1.storage.access_token = some "tok"
  ∧ (getCourseLessons demoBrowser demoLessons401).1.storage.refresh_token = some "ref"
  ∧ (getCourseLessons demoBrowser demoLessons401).1.location = "/courses/1"
  ∧ (getCourseLessons demoBrowser demoLessons401).2 =
      Except.error "Ошибка загрузки уроков" :=
  ⟨rfl, rfl, rfl, rfl⟩

/-- C1 (amended): the 401 handling — clear both tokens and navigate to `/` —
holds for every response routed through `apiFetch`, through `checkResponse`
(so `getMyCourses`), and for `getCurrentUser`; helpers that call fetch
directly, such as `getCourseLessons`, never reach it. -/
theorem c1_unauthorized {β : Type} (s : BrowserState) (rsp : HttpResponse β)
    (rspU : HttpResponse User) (h : rsp.status = 401) (hU : rspU.status = 401) :
    (apiFetch s rsp).1 =
      { storage := { access_token := none, refresh_token := none }, location := "/" }
  ∧ (checkResponse s rsp).1 =
      { storage := { access_token := none, refresh_token := none }, location := "/" }
  ∧ (getCurrentUser s rspU).1 =
      { storage := { access_token := none, refresh_token := none }, location := "/" } := by
  refine ⟨?_, ?_, ?_⟩ <;>
    simp [apiFetch, checkResponse, getCurrentUser, handleUnauthorized, h, hU]

/-- A concrete user record. -/
def demoUser : User :=
  { id := 7, email := "a@b.c", first_name := "Ann", last_name := "Lee",
    role := Role.teacher, is_active := true, avatar_url := none }

/-- C1 witness: a 401 through `apiFetch` (and friends) clears the session. -/
theorem c1_witness :
    (apiFetch demoBrowser ({ status := 401, body := () } : HttpResponse Unit)).1 =
      { storage := { access_token := none, refresh_token := none }, location := "/" } :=
  (c1_unauthorized demoBrowser { status := 401, body := () }
    { status := 401, body := demoUser } rfl rfl).1

/-- C8: at startup, no stored token means no whoami call and no user; a
stored token means exactly one whoami call, whose success sets the user from
the response body and whose failure (401 included) removes both tokens and
leaves the user unauthenticated. -/
theorem c8_startup (s : BrowserState) (rsp : HttpResponse User) :
    (s.storage.access_token = none →
      appStartup s rsp = { browser := s, user := none, whoamiCalls := 0 })
  ∧ (∀ t, s.storage.access_token = some t →
      (appStartup s rsp).whoamiCalls = 1
      ∧ (rsp.ok = true →
          (appStartup s rsp).user = some rsp.body
          ∧ (appStartup s rsp).browser = s)
      ∧ (rsp.ok = false →
          (appStartup s rsp).user = none
          ∧ (appStartup s rsp).browser.storage.access_token = none
          ∧ (appStartup s rsp).browser.storage.refresh_token = none)) := by
  constructor
  · intro h
    unfold appStartup
    rw [h]
  · intro t ht
    have hok : rsp.ok = true → rsp.status ≠ 401 := by
      intro hk
      unfold HttpResponse.ok at hk
      intro hc
      rw [hc] at hk
      simp at hk
    unfold appStartup
    rw [ht]
    by_cases h401 : rsp.status = 401
    · have hnotok : rsp.ok = false := by
        rcases hb : rsp.ok with _ | _
        · rfl
        · exact absurd h401 (hok hb)
      simp [getCurrentUser, handleUnauthorized, h401, hnotok]
    · rcases hb : rsp.ok with _ | _
      · simp [getCurrentUser, handleUnauthorized, h401, hb]
      · simp [getCurrentUser, handleUnauthorized, h401, hb]

/-- C8 witness: with a stored token and a failing whoami response, one call
is made, both tokens end up removed and the user stays unauthenticated. -/
theorem c8_witness :
    (appStartup demoBrowser { status := 500, body := demoUser }).whoamiCalls = 1
  ∧ (appStartup demoBrowser { status := 500, body := demoUser }).user = none
  ∧ (appStartup demoBrowser
      { status := 500, body := demoUser }).browser.storage.access_token = none := by
  have h := (c8_startup demoBrowser { status := 500, body := demoUser }).2 "tok" rfl
  exact ⟨h.1, (h.2.2 (by decide)).1, (h.2.2 (by decide)).2.1⟩

/-- C9: with lesson type `video`, a selected file whose MIME type is outside
the accepted video set is rejected before any upload: the stored file is
unchanged and the error message naming the acceptable formats is shown. -/
theorem c9_video_mime (st : LessonModalState) (f : SelectedFile)
    (h : validVideoTypes.contains f.mime = false) :
    (handleFileChange LessonType.video (some f) st).file = st.file
  ∧ (handleFileChange LessonType.video (some f) st).error = some videoFormatError := by
  have h2 : ¬ f.mime ∈ validVideoTypes := by simpa using h
  unfold handleFileChange
  simp [h2]

/-- C9 witness: a `application/pdf` file on a video lesson is not stored and
produces the format error. -/
theorem c9_witness :
    (handleFileChange LessonType.video
        (some { name := "doc.pdf", mime := "application/pdf" })
        { file := none, error := none }).file = none
  ∧ (handleFileChange LessonType.video
        (some { name := "doc.pdf", mime := "application/pdf" })
        { file := none, error := none }).error = some videoFormatError :=
  c9_video_mime { file := none, error := none }
    { name := "doc.pdf", mime := "application/pdf" } (by decide)

/-- C2 counterexample: with displayed maximum 10, the entered score "11"
passes `handleGrade`'s validation and the grade endpoint is called with 11 —
the handler enforces no upper bound, refuting "if and only if ... less than
or equal to the assignment's max_score". -/
theorem c2_counterexample :
    (handleGrade "11" "").1 = some { score := 11, feedback := none }
  ∧ (10 : Int) < 11 := by
  refine ⟨?_, by decide⟩
  decide

/-- C2 (amended): the grade endpooint is called exactly when the entered
score parses (JavaScript `parseInt`) to a non-negative value; every failing
input gets the inline error and no call; scores above `max_score` are not
rejected here — the upper bound lives only in the number input's `max`
attribute. -/
theorem c2_grade_validation (score feedback : String) :
    ((handleGrade score feedback).1.isSome ↔
        ∃ n : Int, jsParseInt score = some n ∧ 0 ≤ n)
  ∧ ((handleGrade score feedback).1 = none →
      (handleGrade score feedback).2 = some "Введите корректную оценку")
  ∧ (∀ n : Int, jsParseInt score = some n → 0 ≤ n →
      Option.map GradeRequest.score (handleGrade score feedback).1 = some n
      ∧ (handleGrade score feedback).2 = none) := by
  rcases hp : jsParseInt score with _ | n
  · refine ⟨by simp [handleGrade, hp], by simp [handleGrade, hp], ?_⟩
    intro n hn
    cases hn
  · by_cases hneg : n < 0
    · refine ⟨?_, by simp [handleGrade, hp, hneg], ?_⟩
      · simp only [handleGrade, hp, if_pos hneg]
        simp only [Option.isSome_none]
        constructor
        · intro hfalse; cases hfalse
        · rintro ⟨m, hm, hm0⟩
          cases hm
          omega
      · intro m hm hm0
        cases hm
        omega
    · refine ⟨?_, ?_, ?_⟩
      · simp only [handleGrade, hp, if_neg hneg]
        simp only [Option.isSome_some, true_iff]
        exact ⟨n, rfl, by omega⟩
      · simp [handleGrade, hp, hneg]
      · intro m hm hm0
        cases hm
        simp [handleGrade, hp, hneg]

/-- C2 witness: the entered score "100" (equal to a max score of 100) is sent
to the endpoint with no inline error. -/
theorem c2_witness :
    Option.map GradeRequest.score (handleGrade "100" "Good job").1 = some 100
  ∧ (handleGrade "100" "Good job").2 = none :=
  (c2_grade_validation "100" "Good job").2.2 100 (by decide) (by decide)

/-- C3: a course-list request for page `page` carries
`skip = (page-1) * limit`; `totalPages` is the least page count covering the
server total (the natural-number ceiling of total/limit); and every
navigation control keeps the page within 1..totalPages, with the previous
arrow disabled exactly on page 1 and the next arrow exactly on the last
page. -/
theorem c3_pagination (page limit total tp : Nat) :
    (fetchCoursesQuery page limit).skip = (page - 1) * limit
  ∧ (0 < limit →
      total ≤ limit * totalPages total limit
      ∧ ∀ k, total ≤ limit * k → totalPages total limit ≤ k)
  ∧ (∀ a : PageAction, 1 ≤ tp → 1 ≤ page → page ≤ tp →
      (∀ n, a = PageAction.pageButton n → n ∈ visiblePageButtons tp) →
      1 ≤ pageStep tp page a ∧ pageStep tp page a ≤ tp)
  ∧ (prevDisabled page = true ↔ page = 1)
  ∧ (0 < tp → (nextDisabled page tp = true ↔ page = tp)) := by
  refine ⟨rfl, ?_, ?_, ?_, ?_⟩
  · intro hl
    constructor
    · have h1 := Nat.div_add_mod (total + limit - 1) limit
      have h2 := Nat.mod_lt (total + limit - 1) hl
      unfold totalPages
      omega
    · intro k hk
      unfold totalPages
      rw [Nat.div_le_iff_le_mul_add_pred hl]
      omega
  · intro a htp hp1 hp2 hbtn
    cases a with
    | prevArrow => simp only [pageStep]; omega
    | nextArrow => simp only [pageStep]; omega
    | pageButton n =>
        have hmem := hbtn n rfl
        simp only [pageStep]
        unfold visiblePageButtons at hmem
        by_cases h7 : tp ≤ 7
        · rw [if_pos h7] at hmem
          rcases List.mem_map.mp hmem with ⟨i, hi, hin⟩
          have := List.mem_range.mp hi
          omega
        · rw [if_neg h7] at hmem
          rcases List.mem_map.mp hmem with ⟨i, hi, hin⟩
          have := List.mem_range.mp hi
          omega
    | lastPageButton => simp only [pageStep]; omega
  · simp [prevDisabled]
  · intro htp
    simp only [nextDisabled, Bool.or_eq_true, beq_iff_eq]
    omega

/-- C3 witness: with 13 courses at 6 per page there are 3 pages covering the
total, and on page 2 the next arrow moves to a page that is still within
1..3. -/
theorem c3_witness :
    (13 : Nat) ≤ 6 * totalPages 13 6
  ∧ 1 ≤ pageStep 3 2 PageAction.nextArrow
  ∧ pageStep 3 2 PageAction.nextArrow ≤ 3 := by
  refine ⟨((c3_pagination 2 6 13 3).2.1 (by decide)).1, ?_, ?_⟩
  · exact ((c3_pagination 2 6 13 3).2.2.1 PageAction.nextArrow (by decide)
      (by decide) (by decide) (fun n h => nomatch h)).1
  · exact ((c3_pagination 2 6 13 3).2.2.1 PageAction.nextArrow (by decide)
      (by decide) (by decide) (fun n h => nomatch h)).2

/-- C4: every `/my/courses` item is projected by discriminating on the
presence of `course_id`: an enrollment keeps its numeric progress and gets
no status; a teacher course gets `progress = null` and some status. -/
theorem c4_projection (items : List MyCoursesItem) (item : MyCoursesItem)
    (h : item ∈ items) :
    projectMyCourse item ∈ fetchCoursesProjection items
  ∧ (item.hasCourseIdField = true →
      ∃ e, item = MyCoursesItem.enrollment e
        ∧ (projectMyCourse item).progress = some e.progress
        ∧ (projectMyCourse item).status = none)
  ∧ (item.hasCourseIdField = false →
      (projectMyCourse item).progress = none
      ∧ ∃ st, (projectMyCourse item).status = some st) := by
  refine ⟨List.mem_map_of_mem _ h, ?_, ?_⟩ <;>
    cases item <;>
      simp [MyCoursesItem.hasCourseIdField, projectMyCourse]

/-- A concrete student enrollment. -/
def demoEnrollment : Enrollment :=
  { id := 1, student_id := 2, course_id := 3, progress := 40,
    enrolled_at := "2025-01-01", course_title := "Intro" }

/-- C4 witness: a student enrollment projects to numeric progress with no
status field. -/
theorem c4_witness :
    (projectMyCourse (MyCoursesItem.enrollment demoEnrollment)).progress = some 40
  ∧ (projectMyCourse (MyCoursesItem.enrollment demoEnrollment)).status = none := by
  have h := (c4_projection [MyCoursesItem.enrollment demoEnrollment]
    (MyCoursesItem.enrollment demoEnrollment) (by simp)).2.1 rfl
  rcases h with ⟨e, he, hp, hs⟩
  cases he
  exact ⟨hp, hs⟩

/-- C5: the merged lessons-with-assignments list built by the course page is
sorted non-decreasing in the lessons' `order` field. -/
theorem c5_lessons_sorted (items : List Lesson)
    (getAssignments : Nat → Except String (List Assignment)) :
    List.Sorted (fun a b : LessonWithAssignments => a.lesson.order ≤ b.lesson.order)
      (fetchLessons items getAssignments) := by
  unfold fetchLessons
  haveI : IsTotal LessonWithAssignments
      (fun a b => a.lesson.order ≤ b.lesson.order) :=
    ⟨fun a b => Int.le_total a.lesson.order b.lesson.order⟩
  haveI : IsTrans LessonWithAssignments
      (fun a b => a.lesson.order ≤ b.lesson.order) :=
    ⟨fun a b c hab hbc => le_trans hab hbc⟩
  exact List.sorted_insertionSort _ _

/-- A lesson with order 2 and title "A". -/
def lessonA2 : Lesson :=
  { id := 11, course_id := 1, title := "A", content := none, order := 2,
    type := LessonType.text, file_url := none, created_at := "" }

/-- A lesson with order 5 and title "B". -/
def lessonB5 : Lesson :=
  { id := 12, course_id := 1, title := "B", content := none, order := 5,
    type := LessonType.text, file_url := none, created_at := "" }

/-- A lesson with order 9 and title "C". -/
def lessonC9 : Lesson :=
  { id := 13, course_id := 1, title := "C", content := none, order := 9,
    type := LessonType.text, file_url := none, created_at := "" }

/-- C6 counterexample: the lesson-number circles of the second `CoursePage`
variant render the raw `order` values — with orders 2, 5, 9 the circles show
2, 5, 9, not the 1-based positions 1, 2, 3, so the number shown is not the
position at every label site. -/
theorem c6_counterexample :
    lessonCircleNumbers (fetchLessons [lessonB5, lessonC9, lessonA2]
        (fun _ => Except.ok []))
      = [2, 5, 9]
  ∧ lessonCircleNumbers (fetchLessons [lessonB5, lessonC9, lessonA2]
        (fun _ => Except.ok []))
      ≠ [1, 2, 3] :=
  ⟨rfl, by decide⟩

/-- C6 (amended): the "Урок N" labels of CoursePage.tsx use the 1-based
position in the sorted list — `index + 1` in the structure panel and
`findIndex + 1` in the content header — and with the non-contiguous orders
2, 5, 9 those labels read 1, 2, 3; the sidebar number circle of the second
`CoursePage` variant instead renders the raw `order` value, showing 2, 5, 9
there. -/
theorem c6_lesson_numbers (lessons : List LessonWithAssignments) (i : Nat)
    (l : LessonWithAssignments) (h : lessons[i]? = some l) :
    (lessonListLabels lessons)[i]? =
      some ("Урок " ++ toString (i + 1) ++ ": " ++ l.lesson.title)
  ∧ (∀ j, lessons.findIdx? (fun x => x.lesson.id == l.lesson.id) = some j →
      selectedLessonNumber lessons l.lesson.id = (j : Int) + 1)
  ∧ (lessonCircleNumbers lessons)[i]? = some l.lesson.order
  ∧ lessonListLabels (fetchLessons [lessonB5, lessonC9, lessonA2]
        (fun _ => Except.ok []))
      = ["Урок 1: A", "Урок 2: B", "Урок 3: C"]
  ∧ lessonCircleNumbers (fetchLessons [lessonB5, lessonC9, lessonA2]
        (fun _ => Except.ok []))
      = [2, 5, 9] := by
  refine ⟨?_, ?_, ?_, rfl, rfl⟩
  · unfold lessonListLabels
    rw [List.getElem?_map, List.getElem?_enum, h]
    rfl
  · intro j hj
    unfold selectedLessonNumber
    rw [hj]
  · unfold lessonCircleNumbers
    rw [List.getElem?_map, h]
    rfl

/-- C6 witness: in the sorted example list the lesson with raw order 5 sits
at position 1; its "Урок N" label reads lesson 2 while its number circle in
the second variant shows 5. -/
theorem c6_witness :
    (lessonListLabels (fetchLessons [lessonB5, lessonC9, lessonA2]
        (fun _ => Except.ok [])))[1]? = some "Урок 2: B"
  ∧ (lessonCircleNumbers (fetchLessons [lessonB5, lessonC9, lessonA2]
        (fun _ => Except.ok [])))[1]? = some 5 := by
  refine ⟨?_, ?_⟩
  · exact (c6_lesson_numbers
      (fetchLessons [lessonB5, lessonC9, lessonA2] (fun _ => Except.ok []))
      1 { lesson := lessonB5, assignments := [] } rfl).1
  · exact (c6_lesson_numbers
      (fetchLessons [lessonB5, lessonC9, lessonA2] (fun _ => Except.ok []))
      1 { lesson := lessonB5, assignments := [] } rfl).2.2.1

/-- C7: a failing per-lesson assignment fetch degrades that lesson to an
empty assignments array while every lesson still appears in the merged list,
and a failing comment fetch yields the empty thread without touching the
page-level error or the add-comment control. -/
theorem c7_degraded_failures (items : List Lesson)
    (getAssignments : Nat → Except String (List Assignment))
    (st : CommentsState) (sid : Nat) (e : String) (newComment : String) :
    (∀ lesson, lesson ∈ items →
      ∀ msg, getAssignments lesson.id = Except.error msg →
        ({ lesson := lesson, assignments := [] } : LessonWithAssignments) ∈
          fetchLessons items getAssignments)
  ∧ (∀ lesson, lesson ∈ items →
      ∀ as, getAssignments lesson.id = Except.ok as →
        ({ lesson := lesson, assignments := as } : LessonWithAssignments) ∈
          fetchLessons items getAssignments)
  ∧ (fetchLessons items getAssignments).length = items.length
  ∧ (loadComments st sid (Except.error e)).comments = []
  ∧ (loadComments st sid (Except.error e)).pageError = st.pageError
  ∧ (loadComments st sid (Except.error e)).loadingComments = false
  ∧ addCommentDisabled (loadComments st sid (Except.error e)) newComment
      = addCommentDisabled st newComment := by
  refine ⟨?_, ?_, ?_, rfl, rfl, rfl, rfl⟩
  · intro lesson hl msg hmsg
    unfold fetchLessons
    rw [(List.perm_insertionSort _ _).mem_iff]
    have hone : mergeLessonAssignments getAssignments lesson =
        { lesson := lesson, assignments := [] } := by
      unfold mergeLessonAssignments
      rw [hmsg]
    rw [← hone]
    exact List.mem_map_of_mem _ hl
  · intro lesson hl as hok
    unfold fetchLessons
    rw [(List.perm_insertionSort _ _).mem_iff]
    have hone : mergeLessonAssignments getAssignments lesson =
        { lesson := lesson, assignments := as } := by
      unfold mergeLessonAssignments
      rw [hok]
    rw [← hone]
    exact List.mem_map_of_mem _ hl
  · unfold fetchLessons
    rw [(List.perm_insertionSort _ _).length_eq, List.length_map]

/-- C7 witness: a lesson whose assignment fetch throws still appears, with
no assignments, and a failing comment fetch empties the thread. -/
theorem c7_witness :
    ({ lesson := lessonA2, assignments := [] } : LessonWithAssignments) ∈
      fetchLessons [lessonA2] (fun _ => Except.error "network")
  ∧ (loadComments
      { viewing := none, comments := [], loadingComments := false,
        addingComment := false, pageError := none }
      42 (Except.error "network")).comments = [] := by
  have h := c7_degraded_failures [lessonA2] (fun _ => Except.error "network")
    { viewing := none, comments := [], loadingComments := false,
      addingComment := false, pageError := none } 42 "network" "looks good"
  exact ⟨h.1 lessonA2 (by simp) "network" rfl, h.2.2.2.1⟩
